import Mathlib

/-!
Shallow embedding of `backend/server.py` (Stock analysis backend): the
session-scoped interaction orchestrator, its signal extraction, the model
gateway helper and the history endpoints, together with proofs settling the
frozen claims about them.

Python strings are modelled as `List Char`; `str.lower` / `str.capitalize`
are modelled character-wise (faithful on the ASCII vocabulary involved);
Python's substring test `a in b` is `List` infix (`<:+:`) and
`str.startswith` is `List` prefix (`<+:`).  Timestamps are modelled as `Nat`
ticks supplied by the caller; uuid generation and the current time are
modelled as explicit `fresh_id` / `now` arguments.  The external
collaborators (LLM provider, MongoDB) are modelled as outcome oracles in an
`Env` record; `Except` results stand for raising / not raising.
-/

namespace Stock

abbrev Str := List Char

/-- Python `str.lower`, character-wise (ASCII). -/
def lowerStr (s : Str) : Str := s.map Char.toLower

/-- Python `str.capitalize`: first character upper-cased, the rest lower-cased. -/
def capitalizeStr : Str → Str
  | [] => []
  | c :: cs => c.toUpper :: cs.map Char.toLower

/-- One persisted chat turn (`ChatMessage` model in `backend/server.py`). -/
structure ChatMessage where
  id : Str
  session_id : Str
  message : Str
  response : Str
  timestamp : Nat
deriving DecidableEq

/-- The recommendation dict built by `analyze_candlestick_chart`
    (lines 215-223): up to three keys, each set independently except that
    `action` is set by an if/elif chain. -/
structure Recommendations where
  risk_management : Option Str
  profit_booking : Option Str
  action : Option Str
deriving DecidableEq

/-- One persisted analysis turn (`CandlestickAnalysis` model).  `indicators`
    is carried for shape-fidelity; the endpoint always leaves it empty. -/
structure CandlestickAnalysis where
  id : Str
  session_id : Str
  filename : Str
  analysis : Str
  patterns_detected : List Str
  indicators : List (Str × Str)
  recommendations : Recommendations
  timestamp : Nat
deriving DecidableEq

/-- The `pattern_keywords` list of `analyze_candlestick_chart` (line 210). -/
def pattern_keywords : List Str :=
  ["doji".toList, "hammer".toList, "shooting star".toList, "engulfing".toList,
   "pin bar".toList, "inside bar".toList]

/-- The pattern-detection loop of `analyze_candlestick_chart` (lines 211-213):
    for each keyword, if its lower-cased form occurs in the lower-cased
    response text, append its capitalized form. -/
def detect_patterns (analysis : Str) : List Str :=
  pattern_keywords.foldl
    (fun acc pattern =>
      if decide (lowerStr pattern <:+: lowerStr analysis) then
        acc ++ [capitalizeStr pattern]
      else acc)
    []

/-- The recommendation extraction of `analyze_candlestick_chart`
    (lines 216-223). -/
def extract_recommendations (analysis : Str) : Recommendations :=
  { risk_management :=
      if decide ("stop loss".toList <:+: lowerStr analysis) then
        some "Stop loss recommended".toList
      else none
    profit_booking :=
      if decide ("profit".toList <:+: lowerStr analysis) then
        some "Profit targets identified".toList
      else none
    action :=
      if decide ("buy".toList <:+: lowerStr analysis) then
        some "Potential buy signal".toList
      else if decide ("sell".toList <:+: lowerStr analysis) then
        some "Potential sell signal".toList
      else none }

end Stock

namespace Stock

/-- A raised `HTTPException`: status code and detail. -/
structure HttpError where
  status_code : Nat
  detail : Str
deriving DecidableEq

/-- Python `str(HTTPException(...))` (Starlette): "status: detail". -/
def strOfHttpError (e : HttpError) : Str :=
  (Nat.repr e.status_code).toList ++ ": ".toList ++ e.detail

/-- Result of one HTTP handler invocation: a 200 body, or a raised
    `HTTPException`. -/
inductive HttpResult (α : Type) where
  | ok (body : α)
  | error (e : HttpError)
deriving DecidableEq

/-- The provider-client handle built by `get_llm_chat`:
    `LlmChat(api_key, session_id, system_message).with_model("openai", "gpt-4o")`. -/
structure LlmChat where
  api_key : Str
  session_id : Str
  system_message : Str
  provider : Str
  model_name : Str
deriving DecidableEq

/-- The default chat persona of `get_llm_chat` (lines 95-111). -/
def default_system_message : Str :=
  "You are an expert stock market analyst and financial advisor specializing in candlestick pattern analysis and technical indicators.".toList

/-- The stricter chart-analysis persona of `analyze_candlestick_image`
    (lines 124-137). -/
def analysis_system_message : Str :=
  "You are an expert technical analyst specializing in candlestick pattern analysis. Analyze the uploaded candlestick chart image.".toList

/-- The fixed user text sent with the image (line 146). -/
def analysis_user_text : Str :=
  "Please analyze this candlestick chart image and provide comprehensive trading analysis with specific patterns, indicators, and trading recommendations including stop loss and profit booking strategies.".toList

/-- The handle value `get_llm_chat` constructs for given credential, session
    and persona. -/
def mkChat (key sid : Str) (system_message : Option Str) : LlmChat :=
  { api_key := key
    session_id := sid
    system_message := system_message.getD default_system_message
    provider := "openai".toList
    model_name := "gpt-4o".toList }

/-- `get_llm_chat` (lines 88-119): fails with a 500 `HTTPException` when the
    credential is missing, otherwise constructs a fresh `LlmChat` handle.
    The `created` argument threads the log of constructed handles so that
    handle allocation is observable in the model; the Python code constructs
    a new `LlmChat` object on every call. -/
def get_llm_chat (api_key : Option Str) (session_id : Str)
    (system_message : Option Str) (created : List LlmChat) :
    Except HttpError (LlmChat × List LlmChat) :=
  match api_key with
  | none => .error ⟨500, "LLM API key not configured".toList⟩
  | some key =>
      let chat := mkChat key session_id system_message
      .ok (chat, created ++ [chat])

/-- Outcome oracle for the external collaborators during one request:
    the provider credential, the provider call results, and the store write
    results.  `Except.error` stands for the Python call raising. -/
structure Env where
  api_key : Option Str
  send_message : LlmChat → Str → Except Str Str
  send_image_message : LlmChat → Str → Str → Except Str Str
  insert_chat : ChatMessage → Except Str Unit
  insert_analysis : CandlestickAnalysis → Except Str Unit

/-- The body of `POST /api/chat`: request text and session id. -/
structure ChatRequest where
  message : Str
  session_id : Str
deriving DecidableEq

/-- `chat_with_ai` (lines 162-184), `POST /api/chat`.  Returns the HTTP
    result and the list of records persisted during the request (empty when
    `insert_one` raised, since nothing was written).  Any exception in the
    body is converted by the blanket `except` into a 500 with detail
    "Chat service error: ...". -/
def chat_with_ai (env : Env) (request : ChatRequest) (fresh_id : Str)
    (now : Nat) : HttpResult (Str × Str) × List ChatMessage :=
  match get_llm_chat env.api_key request.session_id none [] with
  | .error e =>
      (.error ⟨500, "Chat service error: ".toList ++ strOfHttpError e⟩, [])
  | .ok (chat, _) =>
      match env.send_message chat request.message with
      | .error e => (.error ⟨500, "Chat service error: ".toList ++ e⟩, [])
      | .ok response =>
          let chat_data : ChatMessage :=
            { id := fresh_id
              session_id := request.session_id
              message := request.message
              response := response
              timestamp := now }
          match env.insert_chat chat_data with
          | .error e => (.error ⟨500, "Chat service error: ".toList ++ e⟩, [])
          | .ok _ => (.ok (response, request.session_id), [chat_data])

/-- `analyze_candlestick_image` (lines 121-155): the provider call wrapped in
    a catch-all that converts any failure (including the missing-credential
    `HTTPException` from `get_llm_chat`) into an error STRING returned as if
    it were the analysis text.  The base64 step is a pure injective recoding
    of the payload and is modelled by carrying the payload itself. -/
def analyze_candlestick_image (env : Env) (image_base64 : Str)
    (session_id : Str) : Str :=
  match get_llm_chat env.api_key session_id (some analysis_system_message) [] with
  | .error e => "Error analyzing image: ".toList ++ strOfHttpError e
  | .ok (chat, _) =>
      match env.send_image_message chat analysis_user_text image_base64 with
      | .ok response => response
      | .error e => "Error analyzing image: ".toList ++ e

/-- An uploaded multipart file: declared filename, declared media kind
    (`content_type`) and payload. -/
structure UploadFile where
  filename : Str
  content_type : Str
  content : Str
deriving DecidableEq

/-- The 200 body of `POST /api/analyze-candlestick` (lines 238-244). -/
structure AnalysisBody where
  analysis : Str
  patterns_detected : List Str
  recommendations : Recommendations
  session_id : Str
  filename : Str
deriving DecidableEq

/-- `analyze_candlestick_chart` (lines 186-248), `POST /api/analyze-candlestick`.
    Returns the HTTP result and the list of records persisted.  Note the
    inner `HTTPException(400, "File must be an image")` is itself caught by
    the handler's blanket `except Exception` and re-raised as a 500 whose
    detail wraps the stringified 400. -/
def analyze_candlestick_chart (env : Env) (file : UploadFile)
    (session_id : Str) (fresh_id : Str) (now : Nat) :
    HttpResult AnalysisBody × List CandlestickAnalysis :=
  if decide ("image/".toList <+: file.content_type) then
    let analysis := analyze_candlestick_image env file.content session_id
    let patterns_detected := detect_patterns analysis
    let recommendations := extract_recommendations analysis
    let analysis_data : CandlestickAnalysis :=
      { id := fresh_id
        session_id := session_id
        filename := file.filename
        analysis := analysis
        patterns_detected := patterns_detected
        indicators := []
        recommendations := recommendations
        timestamp := now }
    match env.insert_analysis analysis_data with
    | .error e =>
        (.error ⟨500, "Analysis failed: ".toList ++ e⟩, [])
    | .ok _ =>
        (.ok { analysis := analysis
               patterns_detected := patterns_detected
               recommendations := recommendations
               session_id := session_id
               filename := file.filename }, [analysis_data])
  else
    (.error ⟨500, "Analysis failed: ".toList
        ++ strOfHttpError ⟨400, "File must be an image".toList⟩⟩, [])

/-- The HTTP layer of `POST /api/analyze-candlestick`: when the request omits
    `session_id`, FastAPI substitutes the declared default "default"
    (line 189). -/
def analyze_candlestick_endpoint (env : Env) (file : UploadFile)
    (sessionOpt : Option Str) (fresh_id : Str) (now : Nat) :
    HttpResult AnalysisBody × List CandlestickAnalysis :=
  analyze_candlestick_chart env file (sessionOpt.getD "default".toList)
    fresh_id now

/-- The Mongo query of `get_chat_history` (line 254):
    `find({session_id}).sort("timestamp", 1).to_list(100)`. -/
def find_chats (store : List ChatMessage) (session_id : Str) :
    List ChatMessage :=
  ((store.filter (fun r => decide (r.session_id = session_id))).mergeSort
      (fun a b => decide (a.timestamp ≤ b.timestamp))).take 100

/-- The Mongo query of `get_analysis_history` (line 264):
    `find({session_id}).sort("timestamp", -1).to_list(50)`. -/
def find_analyses (store : List CandlestickAnalysis) (session_id : Str) :
    List CandlestickAnalysis :=
  ((store.filter (fun r => decide (r.session_id = session_id))).mergeSort
      (fun a b => decide (b.timestamp ≤ a.timestamp))).take 50

/-- `get_chat_history` (lines 250-258), `GET /api/chat-history/{session_id}`.
    The store argument is the read outcome: `.error` stands for the store
    being unreachable, in which case the handler degrades to an empty list. -/
def get_chat_history (store : Except Str (List ChatMessage))
    (session_id : Str) : List ChatMessage × Str :=
  match store with
  | .error _ => ([], session_id)
  | .ok records => (find_chats records session_id, session_id)

/-- `get_analysis_history` (lines 260-268),
    `GET /api/analysis-history/{session_id}`. -/
def get_analysis_history (store : Except Str (List CandlestickAnalysis))
    (session_id : Str) : List CandlestickAnalysis × Str :=
  match store with
  | .error _ => ([], session_id)
  | .ok records => (find_analyses records session_id, session_id)

/-- Fixture: an environment in which every external call succeeds. -/
def okEnv : Env :=
  { api_key := some "k".toList
    send_message := fun _ _ => .ok "hello buy".toList
    send_image_message := fun _ _ _ => .ok "a doji appeared".toList
    insert_chat := fun _ => .ok ()
    insert_analysis := fun _ => .ok () }

/-- Fixture: an environment in which the provider call fails (raises or
    times out) but the store is healthy. -/
def failProviderEnv : Env :=
  { api_key := some "k".toList
    send_message := fun _ _ => .error "boom".toList
    send_image_message := fun _ _ _ => .error "timeout".toList
    insert_chat := fun _ => .ok ()
    insert_analysis := fun _ => .ok () }

/-- Fixture: an environment in which the provider succeeds but every store
    write fails. -/
def failStoreEnv : Env :=
  { api_key := some "k".toList
    send_message := fun _ _ => .ok "resp".toList
    send_image_message := fun _ _ _ => .ok "resp".toList
    insert_chat := fun _ => .error "down".toList
    insert_analysis := fun _ => .error "down".toList }

/-- Fixture: a sample persisted chat turn. -/
def sampleChat : ChatMessage :=
  { id := "i".toList
    session_id := "s1".toList
    message := "m".toList
    response := "r".toList
    timestamp := 5 }

/-- Fixture: a sample persisted analysis turn. -/
def sampleAnalysis : CandlestickAnalysis :=
  { id := "j".toList
    session_id := "s1".toList
    filename := "f".toList
    analysis := "a".toList
    patterns_detected := []
    indicators := []
    recommendations := ⟨none, none, none⟩
    timestamp := 7 }

/-- Run `get_llm_chat` twice with the same session id, threading the handle
    log, and report how many handles were constructed. -/
def created_after_two_calls (key sid : Str) : Nat :=
  match get_llm_chat (some key) sid none [] with
  | .error _ => 0
  | .ok (_, st1) =>
      match get_llm_chat (some key) sid none st1 with
      | .error _ => st1.length
      | .ok (_, st2) => st2.length

end Stock

namespace Stock

/-! ### Helper lemmas -/

/-- A fold that conditionally appends one transformed element per step is
    filter-then-map. -/
theorem foldl_ite_append {α β : Type} (c : α → Bool) (f : α → β) :
    ∀ (l : List α) (acc : List β),
      l.foldl (fun a p => if c p then a ++ [f p] else a) acc
        = acc ++ (l.filter c).map f
  | [], acc => by simp
  | x :: l, acc => by
    cases hc : c x with
    | true =>
        simp only [List.foldl_cons, hc, if_true, List.filter_cons, if_pos hc,
          List.map_cons]
        rw [foldl_ite_append c f l (acc ++ [f x])]
        simp
    | false =>
        simp only [List.foldl_cons, hc, if_false, List.filter_cons, if_neg,
          Bool.false_eq_true, not_false_eq_true]
        rw [foldl_ite_append c f l acc]

/-- The pattern-detection loop is the filter of the vocabulary by occurrence,
    mapped through capitalization. -/
theorem detect_patterns_eq (t : Str) :
    detect_patterns t
      = (pattern_keywords.filter
          (fun p => decide (lowerStr p <:+: lowerStr t))).map capitalizeStr := by
  have h := foldl_ite_append
    (fun p => decide (lowerStr p <:+: lowerStr t)) capitalizeStr
    pattern_keywords []
  simpa [detect_patterns] using h

/-- C4: for every response text, pattern extraction includes exactly those
    vocabulary terms whose lowercase form occurs in the lowercased text, each
    at most once, capitalized, in vocabulary order; text containing "doji"
    and none of the other terms yields exactly ["Doji"]. -/
theorem C4_pattern_extraction (t : Str) :
    (∀ s, s ∈ detect_patterns t ↔
      ∃ p ∈ pattern_keywords, lowerStr p <:+: lowerStr t ∧ s = capitalizeStr p) ∧
    (detect_patterns t).Nodup ∧
    (detect_patterns t).Sublist (pattern_keywords.map capitalizeStr) ∧
    ("doji".toList <:+: lowerStr t →
      (∀ p ∈ pattern_keywords, p ≠ "doji".toList → ¬ lowerStr p <:+: lowerStr t) →
      detect_patterns t = ["Doji".toList]) := by
  have hsub : (detect_patterns t).Sublist (pattern_keywords.map capitalizeStr) := by
    rw [detect_patterns_eq]
    exact (List.filter_sublist _).map _
  refine ⟨?_, ?_, hsub, ?_⟩
  · intro s
    rw [detect_patterns_eq]
    simp only [List.mem_map, List.mem_filter, decide_eq_true_eq]
    constructor
    · rintro ⟨p, ⟨hp, hinf⟩, rfl⟩
      exact ⟨p, hp, hinf, rfl⟩
    · rintro ⟨p, hp, hinf, rfl⟩
      exact ⟨p, ⟨hp, hinf⟩, rfl⟩
  · exact hsub.nodup (by decide)
  · intro h1 h2
    have b1 : decide (lowerStr "doji".toList <:+: lowerStr t) = true := by
      have e : lowerStr "doji".toList = "doji".toList := by decide
      rw [e]; exact decide_eq_true h1
    have b2 : decide (lowerStr "hammer".toList <:+: lowerStr t) = false := by
      have e : lowerStr "hammer".toList = "hammer".toList := by decide
      rw [e]
      exact decide_eq_false (h2 "hammer".toList (by simp [pattern_keywords]) (by decide))
    have b3 : decide (lowerStr "shooting star".toList <:+: lowerStr t) = false := by
      have e : lowerStr "shooting star".toList = "shooting star".toList := by decide
      rw [e]
      exact decide_eq_false
        (h2 "shooting star".toList (by simp [pattern_keywords]) (by decide))
    have b4 : decide (lowerStr "engulfing".toList <:+: lowerStr t) = false := by
      have e : lowerStr "engulfing".toList = "engulfing".toList := by decide
      rw [e]
      exact decide_eq_false
        (h2 "engulfing".toList (by simp [pattern_keywords]) (by decide))
    have b5 : decide (lowerStr "pin bar".toList <:+: lowerStr t) = false := by
      have e : lowerStr "pin bar".toList = "pin bar".toList := by decide
      rw [e]
      exact decide_eq_false
        (h2 "pin bar".toList (by simp [pattern_keywords]) (by decide))
    have b6 : decide (lowerStr "inside bar".toList <:+: lowerStr t) = false := by
      have e : lowerStr "inside bar".toList = "inside bar".toList := by decide
      rw [e]
      exact decide_eq_false
        (h2 "inside bar".toList (by simp [pattern_keywords]) (by decide))
    rw [detect_patterns_eq]
    simp only [pattern_keywords, List.filter_cons, b1, b2, b3, b4, b5, b6,
      List.filter_nil, if_true, if_false, Bool.false_eq_true, List.map_cons,
      List.map_nil]
    decide

/-- Witness for C4 at the concrete text "a doji appeared". -/
theorem C4_pattern_extraction_witness :
    detect_patterns "a doji appeared".toList = ["Doji".toList] :=
  (C4_pattern_extraction "a doji appeared".toList).2.2.2 (by decide) (by decide)

/-- C5: recommendation tags are independent substring presence tests; the
    action tag is a buy signal when "buy" occurs, else a sell signal when
    "sell" occurs, else absent. -/
theorem C5_recommendation_tags (t : Str) :
    ((extract_recommendations t).risk_management.isSome
        ↔ "stop loss".toList <:+: lowerStr t) ∧
    ((extract_recommendations t).profit_booking.isSome
        ↔ "profit".toList <:+: lowerStr t) ∧
    ("buy".toList <:+: lowerStr t →
      (extract_recommendations t).action = some "Potential buy signal".toList) ∧
    (¬ "buy".toList <:+: lowerStr t → "sell".toList <:+: lowerStr t →
      (extract_recommendations t).action = some "Potential sell signal".toList) ∧
    (¬ "buy".toList <:+: lowerStr t → ¬ "sell".toList <:+: lowerStr t →
      (extract_recommendations t).action = none) := by
  refine ⟨?_, ?_, ?_, ?_, ?_⟩
  · by_cases h : "stop loss".toList <:+: lowerStr t <;>
      simp [extract_recommendations, h]
  · by_cases h : "profit".toList <:+: lowerStr t <;>
      simp [extract_recommendations, h]
  · intro h
    have b : decide ("buy".toList <:+: lowerStr t) = true := decide_eq_true h
    simp only [extract_recommendations, b]
    simp
  · intro hb hs
    have b1 : decide ("buy".toList <:+: lowerStr t) = false := decide_eq_false hb
    have b2 : decide ("sell".toList <:+: lowerStr t) = true := decide_eq_true hs
    simp only [extract_recommendations, b1, b2]
    simp
  · intro hb hs
    have b1 : decide ("buy".toList <:+: lowerStr t) = false := decide_eq_false hb
    have b2 : decide ("sell".toList <:+: lowerStr t) = false := decide_eq_false hs
    simp only [extract_recommendations, b1, b2]
    simp

/-- Witness for C5 at a text containing "buy", "sell" and "stop loss": the
    action tag is the buy signal. -/
theorem C5_recommendation_tags_witness :
    (extract_recommendations "buy or sell near the stop loss".toList).action
      = some "Potential buy signal".toList :=
  (C5_recommendation_tags "buy or sell near the stop loss".toList).2.2.1
    (by decide)

end Stock

namespace Stock

/-- `mergeSort` with a transitive, total Boolean comparison is pairwise
    ordered by that comparison. -/
theorem pairwise_mergeSort_of {α : Type} (le : α → α → Bool)
    (trans : ∀ a b c, le a b = true → le b c = true → le a c = true)
    (total : ∀ a b, (le a b || le b a) = true) (l : List α) :
    (l.mergeSort le).Pairwise (fun a b => le a b = true) :=
  List.sorted_mergeSort trans total l

/-- C6: listChats returns the session's records ascending by timestamp capped
    at 100; listAnalyses returns them descending by timestamp capped at 50;
    a session with no records yields the empty list, not an error. -/
theorem C6_history_queries (store : List ChatMessage)
    (astore : List CandlestickAnalysis) (sid : Str) :
    (find_chats store sid).Pairwise (fun a b => a.timestamp ≤ b.timestamp) ∧
    (find_chats store sid).length ≤ 100 ∧
    (∀ r ∈ find_chats store sid, r.session_id = sid) ∧
    ((store.filter (fun r => decide (r.session_id = sid))).length ≤ 100 →
      List.Perm (find_chats store sid)
        (store.filter (fun r => decide (r.session_id = sid)))) ∧
    (find_analyses astore sid).Pairwise (fun a b => b.timestamp ≤ a.timestamp) ∧
    (find_analyses astore sid).length ≤ 50 ∧
    (∀ r ∈ find_analyses astore sid, r.session_id = sid) ∧
    ((astore.filter (fun r => decide (r.session_id = sid))).length ≤ 50 →
      List.Perm (find_analyses astore sid)
        (astore.filter (fun r => decide (r.session_id = sid)))) ∧
    ((∀ r ∈ store, r.session_id ≠ sid) →
      get_chat_history (.ok store) sid = ([], sid)) ∧
    ((∀ r ∈ astore, r.session_id ≠ sid) →
      get_analysis_history (.ok astore) sid = ([], sid)) := by
  have hcs : ((store.filter (fun r => decide (r.session_id = sid))).mergeSort
        (fun a b => decide (a.timestamp ≤ b.timestamp))).Pairwise
        (fun a b => decide (a.timestamp ≤ b.timestamp) = true) :=
    pairwise_mergeSort_of _
      (fun a b c hab hbc => by
        simp only [decide_eq_true_eq] at hab hbc ⊢; omega)
      (fun a b => by
        simp only [Bool.or_eq_true, decide_eq_true_eq]; omega) _
  have has : ((astore.filter (fun r => decide (r.session_id = sid))).mergeSort
        (fun a b => decide (b.timestamp ≤ a.timestamp))).Pairwise
        (fun a b => decide (b.timestamp ≤ a.timestamp) = true) :=
    pairwise_mergeSort_of _
      (fun a b c hab hbc => by
        simp only [decide_eq_true_eq] at hab hbc ⊢; omega)
      (fun a b => by
        simp only [Bool.or_eq_true, decide_eq_true_eq]; omega) _
  refine ⟨?_, ?_, ?_, ?_, ?_, ?_, ?_, ?_, ?_, ?_⟩
  · exact List.Pairwise.sublist (List.take_sublist _ _)
      (hcs.imp (fun h => of_decide_eq_true h))
  · simp only [find_chats, List.length_take]
    omega
  · intro r hr
    have hr2 := List.take_subset _ _ hr
    rw [List.mem_mergeSort] at hr2
    exact of_decide_eq_true (List.mem_filter.mp hr2).2
  · intro hlen
    have hlen2 : ((store.filter (fun r => decide (r.session_id = sid))).mergeSort
        (fun a b => decide (a.timestamp ≤ b.timestamp))).length ≤ 100 := by
      rw [List.length_mergeSort]; exact hlen
    rw [find_chats, List.take_of_length_le hlen2]
    exact List.mergeSort_perm _ _
  · exact List.Pairwise.sublist (List.take_sublist _ _)
      (has.imp (fun h => of_decide_eq_true h))
  · simp only [find_analyses, List.length_take]
    omega
  · intro r hr
    have hr2 := List.take_subset _ _ hr
    rw [List.mem_mergeSort] at hr2
    exact of_decide_eq_true (List.mem_filter.mp hr2).2
  · intro hlen
    have hlen2 : ((astore.filter (fun r => decide (r.session_id = sid))).mergeSort
        (fun a b => decide (b.timestamp ≤ a.timestamp))).length ≤ 50 := by
      rw [List.length_mergeSort]; exact hlen
    rw [find_analyses, List.take_of_length_le hlen2]
    exact List.mergeSort_perm _ _
  · intro hall
    have hf : store.filter (fun r => decide (r.session_id = sid)) = [] := by
      rw [List.filter_eq_nil_iff]
      intro a ha
      simp [hall a ha]
    simp [get_chat_history, find_chats, hf]
  · intro hall
    have hf : astore.filter (fun r => decide (r.session_id = sid)) = [] := by
      rw [List.filter_eq_nil_iff]
      intro a ha
      simp [hall a ha]
    simp [get_analysis_history, find_analyses, hf]

/-- Witness for C6: a one-record store queried under its own session and
    under an unknown session. -/
theorem C6_history_queries_witness :
    List.Perm (find_chats [sampleChat] "s1".toList)
      ([sampleChat].filter (fun r => decide (r.session_id = "s1".toList))) ∧
    get_chat_history (.ok [sampleChat]) "s2".toList = ([], "s2".toList) ∧
    get_analysis_history (.ok [sampleAnalysis]) "s2".toList
      = ([], "s2".toList) := by
  have h1 := C6_history_queries [sampleChat] [sampleAnalysis] "s1".toList
  have h2 := C6_history_queries [sampleChat] [sampleAnalysis] "s2".toList
  exact ⟨h1.2.2.2.1 (by decide),
    h2.2.2.2.2.2.2.2.2.1 (by decide),
    h2.2.2.2.2.2.2.2.2.2 (by decide)⟩

/-- C8: a failed history read (store unreachable) degrades to the empty list
    paired with the requested session id, for both history endpoints. -/
theorem C8_read_failure_empty (e : Str) (sid : Str) :
    get_chat_history (.error e) sid = ([], sid) ∧
    get_analysis_history (.error e) sid = ([], sid) :=
  ⟨rfl, rfl⟩

end Stock

namespace Stock

/-- C7: for every valid chat request with a successful provider response, the
    returned session id equals the request's session id exactly, character
    for character, with no normalization. -/
theorem C7_chat_session_id (env : Env) (request : ChatRequest) (fresh_id : Str)
    (now : Nat) (body : Str × Str) (written : List ChatMessage)
    (h : chat_with_ai env request fresh_id now = (.ok body, written)) :
    body.2 = request.session_id := by
  unfold chat_with_ai at h
  split at h
  · simp at h
  · split at h
    · simp at h
    · simp only [] at h
      split at h
      · simp at h
      · simp only [Prod.mk.injEq, HttpResult.ok.injEq] at h
        obtain ⟨h1, -⟩ := h
        rw [← h1]

/-- Witness for C7 with an all-succeeding environment. -/
theorem C7_chat_session_id_witness :
    (("hello buy".toList, "s1".toList) : Str × Str).2 = "s1".toList :=
  C7_chat_session_id okEnv ⟨"hi".toList, "s1".toList⟩ "id1".toList 0
    ("hello buy".toList, "s1".toList)
    [{ id := "id1".toList
       session_id := "s1".toList
       message := "hi".toList
       response := "hello buy".toList
       timestamp := 0 }] (by decide)

/-- C10: an analysis request that omits session_id does not fail: it is
    processed and persisted under the literal session identifier "default",
    which is also returned in the response envelope. -/
theorem C10_default_session (env : Env) (file : UploadFile) (fresh_id : Str)
    (now : Nat)
    (him : "image/".toList <+: file.content_type)
    (hins : ∀ a, env.insert_analysis a = .ok ()) :
    (∃ b, (analyze_candlestick_endpoint env file none fresh_id now).1 = .ok b
        ∧ b.session_id = "default".toList) ∧
    (analyze_candlestick_endpoint env file none fresh_id now).2 ≠ [] ∧
    (∀ r ∈ (analyze_candlestick_endpoint env file none fresh_id now).2,
      r.session_id = "default".toList) := by
  have b : decide ("image/".toList <+: file.content_type) = true :=
    decide_eq_true him
  simp only [analyze_candlestick_endpoint, Option.getD,
    analyze_candlestick_chart, b, if_true, hins]
  refine ⟨⟨_, rfl, rfl⟩, by simp, ?_⟩
  intro r hr
  simp only [List.mem_singleton] at hr
  rw [hr]

/-- Witness for C10 with an all-succeeding environment and an image upload. -/
theorem C10_default_session_witness :
    (∃ b, (analyze_candlestick_endpoint okEnv
        ⟨"c.png".toList, "image/png".toList, "img".toList⟩
        none "id1".toList 0).1 = .ok b ∧ b.session_id = "default".toList) ∧
    (analyze_candlestick_endpoint okEnv
        ⟨"c.png".toList, "image/png".toList, "img".toList⟩
        none "id1".toList 0).2 ≠ [] ∧
    (∀ r ∈ (analyze_candlestick_endpoint okEnv
        ⟨"c.png".toList, "image/png".toList, "img".toList⟩
        none "id1".toList 0).2, r.session_id = "default".toList) :=
  C10_default_session okEnv
    ⟨"c.png".toList, "image/png".toList, "img".toList⟩ "id1".toList 0
    (by decide) (fun _ => rfl)

/-- C2 (code bug): a request whose declared media kind does not start with
    "image/" is rejected before any provider call (the result does not depend
    on the environment) and nothing is persisted, but the response status is
    500, not the claimed 400: the handler's own `HTTPException(400)` is
    caught by its blanket `except Exception` and re-raised as
    `HTTPException(500, "Analysis failed: 400: File must be an image")`. -/
theorem C2_nonimage_rejected_as_500 (env : Env) (file : UploadFile)
    (sid fresh_id : Str) (now : Nat)
    (h : ¬ "image/".toList <+: file.content_type) :
    analyze_candlestick_chart env file sid fresh_id now
      = (.error ⟨500, "Analysis failed: 400: File must be an image".toList⟩,
         []) := by
  have b : decide ("image/".toList <+: file.content_type) = false :=
    decide_eq_false h
  simp only [analyze_candlestick_chart, b, Bool.false_eq_true, if_false]
  decide

/-- Witness for C2 at declared media kind "text/plain". -/
theorem C2_nonimage_rejected_as_500_witness :
    analyze_candlestick_chart okEnv
        ⟨"notes.txt".toList, "text/plain".toList, "b".toList⟩
        "s1".toList "id1".toList 0
      = (.error ⟨500, "Analysis failed: 400: File must be an image".toList⟩,
         []) :=
  C2_nonimage_rejected_as_500 okEnv
    ⟨"notes.txt".toList, "text/plain".toList, "b".toList⟩
    "s1".toList "id1".toList 0 (by decide)

end Stock

namespace Stock

/-- C1 counterexample: with a provider failure (timeout) and a healthy
    store, the analysis endpoint does NOT return an error response and does
    NOT persist nothing: it returns a 200 whose analysis text is the caught
    error message, and persists one record containing that text. -/
theorem C1_counterexample :
    (analyze_candlestick_chart failProviderEnv
        ⟨"chart.png".toList, "image/png".toList, "img".toList⟩
        "s1".toList "id1".toList 0).2 ≠ [] ∧
    (analyze_candlestick_chart failProviderEnv
        ⟨"chart.png".toList, "image/png".toList, "img".toList⟩
        "s1".toList "id1".toList 0).1
      = .ok { analysis := "Error analyzing image: timeout".toList
              patterns_detected := []
              recommendations := ⟨none, none, none⟩
              session_id := "s1".toList
              filename := "chart.png".toList } := by
  constructor
  · decide
  · decide

/-- C1 (amended): when the provider call fails during an analysis turn (with
    the credential present, an image media kind, and a healthy store), the
    failure is caught inside the gateway helper and turned into the analysis
    TEXT "Error analyzing image: ..."; the endpoint then proceeds normally,
    persisting one complete record carrying that error text and returning a
    200 success response with it.  An error response with nothing persisted
    is not what happens on provider failure. -/
theorem C1_provider_failure_persists_error_text (env : Env)
    (file : UploadFile) (sid fresh_id : Str) (now : Nat) (key e : Str)
    (hk : env.api_key = some key)
    (him : "image/".toList <+: file.content_type)
    (hfail : ∀ chat text img, env.send_image_message chat text img = .error e)
    (hins : ∀ a, env.insert_analysis a = .ok ()) :
    analyze_candlestick_chart env file sid fresh_id now
      = (.ok { analysis := "Error analyzing image: ".toList ++ e
               patterns_detected :=
                 detect_patterns ("Error analyzing image: ".toList ++ e)
               recommendations :=
                 extract_recommendations ("Error analyzing image: ".toList ++ e)
               session_id := sid
               filename := file.filename },
         [{ id := fresh_id
            session_id := sid
            filename := file.filename
            analysis := "Error analyzing image: ".toList ++ e
            patterns_detected :=
              detect_patterns ("Error analyzing image: ".toList ++ e)
            indicators := []
            recommendations :=
              extract_recommendations ("Error analyzing image: ".toList ++ e)
            timestamp := now }]) := by
  have b : decide ("image/".toList <+: file.content_type) = true :=
    decide_eq_true him
  simp only [analyze_candlestick_chart, b, if_true,
    analyze_candlestick_image, hk, get_llm_chat, hfail, hins]

/-- Witness for the amended C1 at the failing-provider fixture. -/
theorem C1_provider_failure_witness :
    analyze_candlestick_chart failProviderEnv
        ⟨"chart.png".toList, "image/png".toList, "img".toList⟩
        "s1".toList "id1".toList 0
      = (.ok { analysis := "Error analyzing image: ".toList ++ "timeout".toList
               patterns_detected :=
                 detect_patterns
                   ("Error analyzing image: ".toList ++ "timeout".toList)
               recommendations :=
                 extract_recommendations
                   ("Error analyzing image: ".toList ++ "timeout".toList)
               session_id := "s1".toList
               filename := "chart.png".toList },
         [{ id := "id1".toList
            session_id := "s1".toList
            filename := "chart.png".toList
            analysis := "Error analyzing image: ".toList ++ "timeout".toList
            patterns_detected :=
              detect_patterns
                ("Error analyzing image: ".toList ++ "timeout".toList)
            indicators := []
            recommendations :=
              extract_recommendations
                ("Error analyzing image: ".toList ++ "timeout".toList)
            timestamp := 0 }]) :=
  C1_provider_failure_persists_error_text failProviderEnv
    ⟨"chart.png".toList, "image/png".toList, "img".toList⟩
    "s1".toList "id1".toList 0 "k".toList "timeout".toList
    rfl (by decide) (fun _ _ _ => rfl) (fun _ => rfl)

/-- C3 counterexample: the model call succeeds but the store write fails;
    the chat endpoint returns a 500 error with nothing persisted, discarding
    the already-computed model response instead of returning it. -/
theorem C3_counterexample :
    chat_with_ai failStoreEnv ⟨"hi".toList, "s1".toList⟩ "id1".toList 0
      = (.error ⟨500, "Chat service error: down".toList⟩, []) := by decide

/-- C3 (amended): for both turn types, when the model call succeeds but the
    subsequent store write fails, the endpoint raises a 500 error carrying
    the store failure message, the already-computed model response is NOT
    returned, and nothing is persisted. -/
theorem C3_store_failure_discards_response (env : Env)
    (request : ChatRequest) (file : UploadFile) (sid fresh_id : Str)
    (now : Nat) (key r e : Str)
    (hk : env.api_key = some key)
    (hok : ∀ chat m, env.send_message chat m = .ok r)
    (hoki : ∀ chat text img, env.send_image_message chat text img = .ok r)
    (him : "image/".toList <+: file.content_type)
    (hic : ∀ c, env.insert_chat c = .error e)
    (hia : ∀ a, env.insert_analysis a = .error e) :
    chat_with_ai env request fresh_id now
      = (.error ⟨500, "Chat service error: ".toList ++ e⟩, []) ∧
    analyze_candlestick_chart env file sid fresh_id now
      = (.error ⟨500, "Analysis failed: ".toList ++ e⟩, []) := by
  have b : decide ("image/".toList <+: file.content_type) = true :=
    decide_eq_true him
  constructor
  · simp only [chat_with_ai, hk, get_llm_chat, hok, hic]
  · simp only [analyze_candlestick_chart, b, if_true,
      analyze_candlestick_image, hk, get_llm_chat, hoki, hia]

/-- Witness for the amended C3 at the failing-store fixture. -/
theorem C3_store_failure_witness :
    chat_with_ai failStoreEnv ⟨"hi".toList, "s1".toList⟩ "id1".toList 0
      = (.error ⟨500, "Chat service error: ".toList ++ "down".toList⟩, []) ∧
    analyze_candlestick_chart failStoreEnv
        ⟨"c.png".toList, "image/png".toList, "img".toList⟩
        "s1".toList "id1".toList 0
      = (.error ⟨500, "Analysis failed: ".toList ++ "down".toList⟩, []) :=
  C3_store_failure_discards_response failStoreEnv ⟨"hi".toList, "s1".toList⟩
    ⟨"c.png".toList, "image/png".toList, "img".toList⟩
    "s1".toList "id1".toList 0 "k".toList "resp".toList "down".toList
    rfl (fun _ _ => rfl) (fun _ _ _ => rfl) (by decide)
    (fun _ => rfl) (fun _ => rfl)

/-- C9 counterexample: two gateway invocations with the same session id
    construct two provider-client handles; a fresh handle is created on the
    second use as well, not only on the first. -/
theorem C9_counterexample :
    created_after_two_calls "k".toList "s1".toList = 2 := rfl

/-- C9 (amended): the gateway constructs a fresh handle on every invocation
    (each successful call appends exactly one newly constructed handle to
    the creation log, even for an already-used session id); what is
    preserved across calls with the same credential, session id and persona
    is the handle VALUE, which carries the session id verbatim, so
    provider-side conversational context is keyed by the session id inside
    each handle rather than by reuse of a cached handle object. -/
theorem C9_fresh_handle_every_call (key sid : Str) (sm : Option Str)
    (st1 st2 : List LlmChat) (c1 c2 : LlmChat) (r1 r2 : List LlmChat)
    (h1 : get_llm_chat (some key) sid sm st1 = .ok (c1, r1))
    (h2 : get_llm_chat (some key) sid sm st2 = .ok (c2, r2)) :
    c1 = c2 ∧ c1.session_id = sid ∧ r1 = st1 ++ [c1] ∧ r2 = st2 ++ [c2] := by
  simp only [get_llm_chat, Except.ok.injEq, Prod.mk.injEq] at h1 h2
  obtain ⟨hc1, hr1⟩ := h1
  obtain ⟨hc2, hr2⟩ := h2
  subst hc1
  subst hc2
  exact ⟨rfl, rfl, hr1.symm, hr2.symm⟩

/-- Witness for the amended C9: two successive calls with session id "s1". -/
theorem C9_fresh_handle_every_call_witness :
    mkChat "k".toList "s1".toList none = mkChat "k".toList "s1".toList none ∧
    (mkChat "k".toList "s1".toList none).session_id = "s1".toList ∧
    [mkChat "k".toList "s1".toList none]
      = [] ++ [mkChat "k".toList "s1".toList none] ∧
    [mkChat "k".toList "s1".toList none, mkChat "k".toList "s1".toList none]
      = [mkChat "k".toList "s1".toList none]
          ++ [mkChat "k".toList "s1".toList none] :=
  C9_fresh_handle_every_call "k".toList "s1".toList none
    [] [mkChat "k".toList "s1".toList none]
    (mkChat "k".toList "s1".toList none) (mkChat "k".toList "s1".toList none)
    [mkChat "k".toList "s1".toList none]
    [mkChat "k".toList "s1".toList none, mkChat "k".toList "s1".toList none]
    rfl rfl

end Stock
